import Mathlib

/-!
Verification of the RTVI voice session client (`src/lib/services/rtvi.ts`)
of pelian/open-webui against its natural-language specification.

The TypeScript class `RTVIVoiceService` is shallowly embedded: its mutable
fields become a `ServiceState` record, callback invocations become an emitted
`CallbackEvent` list, and the asynchronous external steps of `connect`
(HTTP fetches, `getUserMedia`, offer/answer) become a `ConnectEnv` record of
step outcomes consumed in program order.  Data-channel and peer-connection
event handlers become state-transition functions on `ServiceState`.
-/

namespace RTVI

/-- A media track as observed by the service: `kind` ("audio"/"video") and the
`enabled` flag toggled by `setMicMuted`. -/
structure Track where
  kind : String
  enabled : Bool
deriving DecidableEq, Repr

/-- An ICE server entry (only its `urls` string matters to the service). -/
structure IceServer where
  urls : String
deriving DecidableEq, Repr

/-- The peer-connection object as far as the service observes it: the ICE
server list it was constructed with and the local tracks added to it. -/
structure PCState where
  iceServers : List IceServer
  addedTracks : List Track
deriving DecidableEq, Repr

/-- The single kind of outgoing control frame the service ever sends
(`sendClientReady`, rtvi.ts lines 338-345). -/
structure ClientReadyFrame where
  label : String
  type : String
  id : String
  version : String
deriving DecidableEq, Repr

/-- The data channel: its `readyState` string and the log of frames the
service has sent on it. -/
structure DCState where
  readyState : String
  sent : List ClientReadyFrame
deriving DecidableEq, Repr

/-- The mutable fields of `RTVIVoiceService` (rtvi.ts lines 66-74).
`remoteAudio` is `true` when a playback sink (the `Audio` element) is
attached.  The `callbacks` field is modelled by emitting `CallbackEvent`s
rather than stored. -/
structure ServiceState where
  pc : Option PCState
  dc : Option DCState
  localStream : Option (List Track)
  remoteAudio : Bool
  sessionId : Option String
  serverUrl : String
  connected : Bool
  accumulatedBotText : String
deriving DecidableEq, Repr

/-- The state of a freshly constructed service (all fields at their
declared initial values, rtvi.ts lines 66-74). -/
def initState : ServiceState :=
  { pc := none, dc := none, localStream := none, remoteAudio := false,
    sessionId := none, serverUrl := "", connected := false,
    accumulatedBotText := "" }

/-- One invocation of a caller-supplied callback (`RTVICallbacks`,
rtvi.ts lines 18-35).  `errorEvent m` is `onError` invoked with an `Error`
whose message is `m`. -/
inductive CallbackEvent where
  | userTranscript (text : String) (final : Bool)
  | botTranscript (text : String)
  | botStartedSpeaking
  | botStoppedSpeaking
  | userStartedSpeaking
  | userStoppedSpeaking
  | connectionStateChange (state : String)
  | errorEvent (msg : String)
deriving DecidableEq, Repr

/-- The optional `data` payload of an incoming RTVI message
(rtvi.ts lines 54-58). -/
structure RTVIData where
  text : Option String
  final : Option Bool
  error : Option String
deriving DecidableEq, Repr

/-- An incoming RTVI control message (rtvi.ts lines 52-59).  The `type` is a
plain string because unknown wire types must be representable. -/
structure RTVIMessage where
  type : String
  data : Option RTVIData
deriving DecidableEq, Repr

/-- The `handleRTVIMessage` dispatch (rtvi.ts lines 272-325): returns the
updated state and the callback invocations, in order.  Each branch mirrors a
`case` of the `switch`; the JS truthiness test `if (message.data?.error)`
means an absent or empty error string invokes nothing. -/
def handleRTVIMessage (msg : RTVIMessage) (s : ServiceState) :
    ServiceState × List CallbackEvent :=
  if msg.type = "user-transcription" then
    match msg.data with
    | some d =>
      match d.text with
      | some t => (s, [.userTranscript t (d.final.getD false)])
      | none => (s, [])
    | none => (s, [])
  else if msg.type = "bot-llm-text" ∨ msg.type = "bot-tts-text" then
    match msg.data with
    | some d =>
      match d.text with
      | some t =>
        let acc := s.accumulatedBotText ++ t
        ({ s with accumulatedBotText := acc }, [.botTranscript acc])
      | none => (s, [])
    | none => (s, [])
  else if msg.type = "bot-llm-started" then
    ({ s with accumulatedBotText := "" }, [])
  else if msg.type = "bot-llm-stopped" then
    (s, [])
  else if msg.type = "bot-started-speaking" ∨ msg.type = "bot-tts-started" then
    (s, [.botStartedSpeaking])
  else if msg.type = "bot-stopped-speaking" ∨ msg.type = "bot-tts-stopped" then
    (s, [.botStoppedSpeaking])
  else if msg.type = "user-started-speaking" then
    (s, [.userStartedSpeaking])
  else if msg.type = "user-stopped-speaking" then
    (s, [.userStoppedSpeaking])
  else if msg.type = "error" then
    match msg.data with
    | some d =>
      match d.error with
      | some e => if e ≠ "" then (s, [.errorEvent e]) else (s, [])
      | none => (s, [])
    | none => (s, [])
  else
    (s, [])

/-- Process a sequence of already-parsed RTVI messages in order, threading the
state and concatenating the emitted callback events. -/
def runMessages (msgs : List RTVIMessage) (s : ServiceState) :
    ServiceState × List CallbackEvent :=
  match msgs with
  | [] => (s, [])
  | m :: rest =>
    let r1 := handleRTVIMessage m s
    let r2 := runMessages rest r1.1
    (r2.1, r1.2 ++ r2.2)

/-- Whether a reported transport state string is one the handlers treat as
terminal (rtvi.ts lines 207 and 219). -/
def terminalTransportState (st : String) : Bool :=
  st == "disconnected" || st == "failed" || st == "closed"

/-- The `oniceconnectionstatechange` handler (rtvi.ts lines 202-210), applied
when the ICE connection state has become `st`: it always forwards the state
string to `onConnectionStateChange`, and clears `_connected` when the state is
terminal. -/
def iceConnectionStateChange (st : String) (s : ServiceState) :
    ServiceState × List CallbackEvent :=
  if terminalTransportState st then
    ({ s with connected := false }, [.connectionStateChange st])
  else
    (s, [.connectionStateChange st])

/-- The `onconnectionstatechange` handler (rtvi.ts lines 213-222), applied
when the overall connection state has become `st`: sets `_connected` on
"connected", clears it on a terminal state, and invokes no callback. -/
def connectionStateChange (st : String) (s : ServiceState) :
    ServiceState × List CallbackEvent :=
  if st = "connected" then
    ({ s with connected := true }, [])
  else if terminalTransportState st then
    ({ s with connected := false }, [])
  else
    (s, [])

/-- The JS expression `crypto.randomUUID().slice(0, 8)` (rtvi.ts line 341):
the first 8 characters of the (ASCII) UUID string. -/
def clientReadyId (uuid : String) : String :=
  ⟨uuid.data.take 8⟩

/-- The `client-ready` frame built by `sendClientReady` (rtvi.ts lines
338-345) from the random UUID drawn at that call. -/
def clientReadyFrame (uuid : String) : ClientReadyFrame :=
  { label := "rtvi-ai", type := "client-ready", id := clientReadyId uuid,
    version := "1.0.0" }

/-- The `sendClientReady` method (rtvi.ts lines 332-349): if the data channel
is absent or not open it only warns; otherwise it appends the `client-ready`
frame to the send log of the channel.  `uuid` is the value `crypto.randomUUID()`
returned at this call. -/
def sendClientReady (uuid : String) (s : ServiceState) : ServiceState :=
  match s.dc with
  | none => s
  | some d =>
    if d.readyState ≠ "open" then s
    else
      { s with dc := some { d with sent := d.sent ++ [clientReadyFrame uuid] } }

/-- A wire frame arriving on the data channel, as seen after the
`JSON.parse` attempt in `onmessage` (rtvi.ts lines 259-266): either the raw
text failed to parse, or it parsed to an `RTVIMessage`. -/
inductive Frame where
  | malformed (raw : String)
  | valid (msg : RTVIMessage)
deriving DecidableEq, Repr

/-- An event fired on the data channel.  `opened uuid` is the open
event of the channel, with `uuid` the value `crypto.randomUUID()` returns inside the
resulting `sendClientReady` call. -/
inductive DCEvent where
  | opened (uuid : String)
  | wasClosed
  | message (frame : Frame)
deriving DecidableEq, Repr

/-- The `onopen` handler (rtvi.ts lines 249-253): the platform has moved the
`readyState` of the channel to "open", and the handler sends `client-ready`.
If no channel is wired the event cannot fire, leaving the state unchanged. -/
def dcOpenEvent (uuid : String) (s : ServiceState) : ServiceState :=
  match s.dc with
  | none => s
  | some d => sendClientReady uuid { s with dc := some { d with readyState := "open" } }

/-- The `onmessage` handler (rtvi.ts lines 259-266): a malformed frame is
dropped with a local warning (no state change, no callback); a parsed frame
goes to `handleRTVIMessage`. -/
def dcMessageEvent (frame : Frame) (s : ServiceState) :
    ServiceState × List CallbackEvent :=
  match frame with
  | .malformed _ => (s, [])
  | .valid msg => handleRTVIMessage msg s

/-- Dispatch one data-channel event to its handler.  The `onclose` handler
(rtvi.ts lines 255-257) only logs. -/
def dcEvent (e : DCEvent) (s : ServiceState) : ServiceState × List CallbackEvent :=
  match e with
  | .opened uuid => (dcOpenEvent uuid s, [])
  | .wasClosed => (s, [])
  | .message f => dcMessageEvent f s

/-- Process a sequence of data-channel events in order. -/
def runDCEvents (es : List DCEvent) (s : ServiceState) :
    ServiceState × List CallbackEvent :=
  match es with
  | [] => (s, [])
  | e :: rest =>
    let r1 := dcEvent e s
    let r2 := runDCEvents rest r1.1
    (r2.1, r1.2 ++ r2.2)

/-- The frames the service has sent on the current data channel. -/
def sentFrames (s : ServiceState) : List ClientReadyFrame :=
  match s.dc with
  | none => []
  | some d => d.sent

/-- The `disconnect` method (rtvi.ts lines 354-386): stops and releases the
local tracks, detaches the playback sink, closes and drops the data channel
and the peer connection, resets the session fields, and fires
`onConnectionStateChange("disconnected")`. -/
def disconnect (s : ServiceState) : ServiceState × List CallbackEvent :=
  ({ s with localStream := none, remoteAudio := false, dc := none, pc := none,
            connected := false, sessionId := none, accumulatedBotText := "" },
   [.connectionStateChange "disconnected"])

/-- The `setMicMuted` method (rtvi.ts lines 391-398): with a local stream,
sets `enabled := !muted` on every audio track; with none, does nothing. -/
def setMicMuted (muted : Bool) (s : ServiceState) : ServiceState :=
  match s.localStream with
  | none => s
  | some tracks =>
    let updated := tracks.map (fun t => if t.kind = "audio" then { t with enabled := !muted } else t)
    { s with localStream := some updated }

/-- The `isMicMuted` getter (rtvi.ts lines 403-407): `true` with no local
stream; otherwise the negation of the `enabled` flag of the first audio track,
and `true` when the stream has no audio track. -/
def isMicMuted (s : ServiceState) : Bool :=
  match s.localStream with
  | none => true
  | some tracks =>
    match tracks.filter (fun t => t.kind = "audio") with
    | [] => true
    | t :: _ => !t.enabled

/-- The `RTVIConfig` options object (rtvi.ts lines 9-16); optional fields are
`Option` to keep the `!== false` / `|| false` tests faithful. -/
structure RTVIConfig where
  serverUrl : String
  enableMic : Option Bool
  enableCam : Option Bool
deriving DecidableEq, Repr

/-- The parsed body of the `/start` response together with the HTTP status
(rtvi.ts lines 92-104).  `iceServers` is `iceConfig?.iceServers`. -/
structure StartResponse where
  ok : Bool
  status : Nat
  sessionId : String
  iceServers : Option (List IceServer)
deriving DecidableEq, Repr

/-- The offer-exchange response (rtvi.ts lines 139-156): HTTP status plus the
parsed answer description. -/
structure OfferResponse where
  ok : Bool
  status : Nat
  sdp : String
  type : String
deriving DecidableEq, Repr

deriving instance DecidableEq for Except

/-- Outcomes of the awaited external steps of `connect`, in program order.
An `Except.error m` models the corresponding promise rejecting with an error
whose message is `m`. -/
structure ConnectEnv where
  startResult : Except String StartResponse
  mediaResult : Except String (List Track)
  offerCreated : Except String Unit
  offerResult : Except String OfferResponse
  remoteSet : Except String Unit
deriving DecidableEq, Repr

/-- An error thrown out of the `connect` try block: the two explicit `throw
new Error(...)` sites (rtvi.ts lines 99 and 152) and the propagated rejection
of any other awaited step. -/
inductive ConnectError where
  | createSessionFailed (status : Nat)
  | sendOfferFailed (status : Nat)
  | rejected (msg : String)
deriving DecidableEq, Repr

/-- The `message` of the `Error` object carried by a `ConnectError`, as
constructed in rtvi.ts lines 99 and 152. -/
def ConnectError.message : ConnectError → String
  | .createSessionFailed st => "Failed to create session: " ++ toString st
  | .sendOfferFailed st => "Failed to send offer: " ++ toString st
  | .rejected m => m

/-- Modelled from the spec: the error-taxonomy class `SignalingError` of §7
("non-success HTTP status during session creation or offer exchange"), which
the source expresses as plain `Error` objects thrown at rtvi.ts lines 99 and
152 rather than as a named class. -/
def ConnectError.isSignalingError : ConnectError → Bool
  | .createSessionFailed _ => true
  | .sendOfferFailed _ => true
  | .rejected _ => false

/-- The default ICE server list used when the server omits `iceConfig`
(rtvi.ts lines 107-109). -/
def defaultIceServers : List IceServer :=
  [{ urls := "stun:stun.l.google.com:19302" }]

/-- The `catch` block of `connect` (rtvi.ts lines 168-173): invoke the error
callback, await a full `disconnect`, and re-raise the error. -/
def connectFail (e : ConnectError) (s : ServiceState) :
    ServiceState × List CallbackEvent × Except ConnectError Unit :=
  let r := disconnect s
  (r.1, .errorEvent e.message :: r.2, .error e)

/-- The `connect` method (rtvi.ts lines 84-174), with the outcome of each
awaited external step supplied by `env`.  Returns the final state, the
callback invocations in order, and the promise outcome (`Except.error`
models rejection). -/
def connect (cfg : RTVIConfig) (env : ConnectEnv) (s0 : ServiceState) :
    ServiceState × List CallbackEvent × Except ConnectError Unit :=
  let s := { s0 with serverUrl := cfg.serverUrl, accumulatedBotText := "" }
  match env.startResult with
  | .error m => connectFail (.rejected m) s
  | .ok start =>
    if start.ok = false then
      connectFail (.createSessionFailed start.status) s
    else
      let s := { s with sessionId := some start.sessionId }
      let ice := start.iceServers.getD defaultIceServers
      let s := { s with pc := some { iceServers := ice, addedTracks := [] } }
      let afterMedia : Except ConnectError ServiceState :=
        if cfg.enableMic ≠ some false then
          match env.mediaResult with
          | .error m => .error (.rejected m)
          | .ok tracks =>
            .ok { s with localStream := some tracks,
                         pc := some { iceServers := ice, addedTracks := tracks } }
        else
          .ok s
      match afterMedia with
      | .error e => connectFail e s
      | .ok s =>
        match env.offerCreated with
        | .error m => connectFail (.rejected m) s
        | .ok _ =>
          match env.offerResult with
          | .error m => connectFail (.rejected m) s
          | .ok answer =>
            if answer.ok = false then
              connectFail (.sendOfferFailed answer.status) s
            else
              match env.remoteSet with
              | .error m => connectFail (.rejected m) s
              | .ok _ =>
                ({ s with connected := true },
                 [.connectionStateChange "connected"], .ok ())

/-- The message types named in the `switch` of `handleRTVIMessage`
(rtvi.ts lines 275-323). -/
def dispatchTypes : List String :=
  ["user-transcription", "bot-llm-text", "bot-tts-text", "bot-llm-started",
   "bot-llm-stopped", "bot-started-speaking", "bot-tts-started",
   "bot-stopped-speaking", "bot-tts-stopped", "user-started-speaking",
   "user-stopped-speaking", "error"]

/-- A convenient bot-text fragment message. -/
def botTextMsg (ty t : String) : RTVIMessage :=
  { type := ty, data := some { text := some t, final := none, error := none } }

/-- A local microphone track as initially acquired. -/
def micTrack : Track :=
  { kind := "audio", enabled := true }

/-- A concrete connect configuration. -/
def exampleCfg : RTVIConfig :=
  { serverUrl := "http://x", enableMic := none, enableCam := none }

/-- A successful `/start` response. -/
def okStartResponse : StartResponse :=
  { ok := true, status := 200, sessionId := "s1", iceServers := none }

/-- A successful offer-exchange response. -/
def okOfferResponse : OfferResponse :=
  { ok := true, status := 200, sdp := "answer-sdp", type := "answer" }

/-- An environment in which every external step of `connect` succeeds. -/
def okEnv : ConnectEnv :=
  { startResult := .ok okStartResponse, mediaResult := .ok [micTrack],
    offerCreated := .ok (), offerResult := .ok okOfferResponse,
    remoteSet := .ok () }

/-- An environment whose `/start` call returns HTTP 500. -/
def badStartEnv : ConnectEnv :=
  { startResult := .ok { ok := false, status := 500, sessionId := "", iceServers := none },
    mediaResult := .ok [micTrack], offerCreated := .ok (),
    offerResult := .ok okOfferResponse, remoteSet := .ok () }

/-- A service state mid-session: peer connection present, flag connected. -/
def connectedState : ServiceState :=
  { initState with pc := some { iceServers := defaultIceServers, addedTracks := [micTrack] },
                   connected := true }

/-- Whether a data-channel event list contains no channel-open event. -/
def noOpenEvent (es : List DCEvent) : Bool :=
  es.all fun e => match e with | .opened _ => false | _ => true

lemma muted_audio_tracks (tracks : List Track) :
    ∀ t ∈ tracks.map (fun t => if t.kind = "audio" then { t with enabled := !true } else t),
      t.kind = "audio" → t.enabled = false := by
  intro t ht hk
  rcases List.mem_map.mp ht with ⟨u, _, rfl⟩
  by_cases h : u.kind = "audio"
  · simp [h]
  · simp [h] at hk

lemma head_filter_audio_disabled (l : List Track)
    (h : ∀ t ∈ l, t.kind = "audio" → t.enabled = false) :
    (match l.filter (fun t => t.kind = "audio") with
     | [] => true
     | t :: _ => !t.enabled) = true := by
  induction l with
  | nil => rfl
  | cons t rest ih =>
    by_cases hk : t.kind = "audio"
    · have he : t.enabled = false := h t (List.mem_cons_self t rest) hk
      simp [List.filter, hk, he]
    · have hr : ∀ u ∈ rest, u.kind = "audio" → u.enabled = false :=
        fun u hu => h u (List.mem_cons_of_mem t hu)
      simpa [List.filter, hk] using ih hr

lemma handleRTVIMessage_dc (msg : RTVIMessage) (s : ServiceState) :
    ((handleRTVIMessage msg s).1).dc = s.dc := by
  unfold handleRTVIMessage
  repeat' split
  all_goals rfl

lemma dcEvent_dc_of_not_open (e : DCEvent) (s : ServiceState)
    (h : ∀ u, e ≠ .opened u) : ((dcEvent e s).1).dc = s.dc := by
  cases e with
  | opened u => exact absurd rfl (h u)
  | wasClosed => rfl
  | message f =>
    cases f with
    | malformed _ => rfl
    | valid msg => exact handleRTVIMessage_dc msg s

lemma runDCEvents_dc_of_noOpen (es : List DCEvent) (s : ServiceState)
    (h : noOpenEvent es = true) : ((runDCEvents es s).1).dc = s.dc := by
  induction es generalizing s with
  | nil => rfl
  | cons e rest ih =>
    have hrest : noOpenEvent rest = true := by
      simp only [noOpenEvent, List.all_cons, Bool.and_eq_true] at h
      simpa [noOpenEvent] using h.2
    have he : ∀ u, e ≠ .opened u := by
      intro u hu
      subst hu
      simp [noOpenEvent, List.all_cons] at h
    show ((runDCEvents rest (dcEvent e s).1).1).dc = s.dc
    rw [ih (dcEvent e s).1 hrest, dcEvent_dc_of_not_open e s he]

lemma runDCEvents_append_state (a b : List DCEvent) (s : ServiceState) :
    (runDCEvents (a ++ b) s).1 = (runDCEvents b (runDCEvents a s).1).1 := by
  induction a generalizing s with
  | nil => rfl
  | cons e rest ih =>
    show (runDCEvents (rest ++ b) (dcEvent e s).1).1 = _
    rw [ih]
    rfl

lemma connectFail_spec (e : ConnectError) (s : ServiceState) :
    connectFail e s
      = ((disconnect s).1,
         [CallbackEvent.errorEvent e.message,
          CallbackEvent.connectionStateChange "disconnected"],
         Except.error e) := rfl

lemma connect_shape (cfg : RTVIConfig) (env : ConnectEnv) (s0 : ServiceState) :
    (∃ e1 s1, connect cfg env s0 = connectFail e1 s1) ∨
    (connect cfg env s0).2.2 = Except.ok () := by
  unfold connect
  repeat' split
  all_goals first
    | exact Or.inl ⟨_, _, rfl⟩
    | exact Or.inr rfl

lemma dcOpenEvent_fresh (uuid rs : String) (s : ServiceState)
    (h : s.dc = some { readyState := rs, sent := [] }) :
    dcOpenEvent uuid s
      = { s with dc := some { readyState := "open", sent := [clientReadyFrame uuid] } } := by
  simp [dcOpenEvent, sendClientReady, h]

end RTVI

namespace RTVI

/-- Claim C2: every `bot-llm-text` or `bot-tts-text` message carrying a text
fragment appends the fragment to the accumulated bot text buffer and invokes
the bot-transcript callback with the full accumulated buffer; in particular
the fragments "Hel" then "lo" produce callback values "Hel" then "Hello". -/
theorem claim_C2_bot_text_accumulates (s : ServiceState) (ty t : String)
    (d : RTVIData) (hty : ty = "bot-llm-text" ∨ ty = "bot-tts-text")
    (ht : d.text = some t) :
    handleRTVIMessage { type := ty, data := some d } s
      = ({ s with accumulatedBotText := s.accumulatedBotText ++ t },
         [.botTranscript (s.accumulatedBotText ++ t)]) ∧
    (runMessages [botTextMsg ty "Hel", botTextMsg ty "lo"] initState).2
      = [.botTranscript "Hel", .botTranscript "Hello"] := by
  constructor
  · rcases hty with h | h <;> subst h <;> simp [handleRTVIMessage, ht]
  · rcases hty with h | h <;> subst h <;> rfl

/-- Witness for C2 at the concrete input of the example in the spec. -/
theorem claim_C2_witness :
    ("bot-llm-text" = "bot-llm-text" ∨ "bot-llm-text" = "bot-tts-text") ∧
    (RTVIData.mk (some "lo") none none).text = some "lo" ∧
    handleRTVIMessage { type := "bot-llm-text", data := some (RTVIData.mk (some "lo") none none) }
        { initState with accumulatedBotText := "Hel" }
      = ({ initState with accumulatedBotText := "Hello" },
         [.botTranscript "Hello"]) := by
  refine ⟨Or.inl rfl, rfl, ?_⟩
  have h := (claim_C2_bot_text_accumulates { initState with accumulatedBotText := "Hel" }
    "bot-llm-text" "lo" (RTVIData.mk (some "lo") none none) (Or.inl rfl) rfl).1
  exact h

/-- Claim C3: a `bot-llm-started` message resets the accumulated bot text
buffer to empty and invokes no callback; the sequence
["Hi" fragment, bot-llm-started, "Yo" fragment] yields callback values "Hi"
then "Yo", never "HiYo". -/
theorem claim_C3_bot_llm_started_resets (s : ServiceState) (d : Option RTVIData) :
    handleRTVIMessage { type := "bot-llm-started", data := d } s
      = ({ s with accumulatedBotText := "" }, []) ∧
    (runMessages [botTextMsg "bot-llm-text" "Hi",
                  { type := "bot-llm-started", data := none },
                  botTextMsg "bot-llm-text" "Yo"] initState).2
      = [.botTranscript "Hi", .botTranscript "Yo"] := by
  exact ⟨rfl, rfl⟩

/-- Witness for C3 at a concrete mid-session state. -/
theorem claim_C3_witness :
    handleRTVIMessage { type := "bot-llm-started", data := none } connectedState
      = ({ connectedState with accumulatedBotText := "" }, []) :=
  (claim_C3_bot_llm_started_resets connectedState none).1

/-- Claim C5: `disconnect` is idempotent — a second call yields exactly the
same state and the same callback, with every field (peer connection, data
channel, local stream, playback sink, session id, connected flag,
accumulated text) at its pre-connect value. -/
theorem claim_C5_disconnect_idempotent (s : ServiceState) :
    disconnect (disconnect s).1 = disconnect s ∧
    (disconnect s).1.pc = none ∧
    (disconnect s).1.dc = none ∧
    (disconnect s).1.localStream = none ∧
    (disconnect s).1.remoteAudio = false ∧
    (disconnect s).1.sessionId = none ∧
    (disconnect s).1.connected = false ∧
    (disconnect s).1.accumulatedBotText = "" := by
  simp [disconnect]

/-- Witness for C5 at a concrete mid-session state. -/
theorem claim_C5_witness :
    disconnect (disconnect connectedState).1 = disconnect connectedState :=
  (claim_C5_disconnect_idempotent connectedState).1

/-- Claim C8: a malformed (non-JSON-parseable) data-channel frame is dropped
with no callback and no state change, and a frame sequence starting with a
malformed frame is processed exactly as if the bad frame had never arrived. -/
theorem claim_C8_malformed_frame_dropped (raw : String) (s : ServiceState)
    (rest : List DCEvent) :
    dcMessageEvent (.malformed raw) s = (s, []) ∧
    runDCEvents (.message (.malformed raw) :: rest) s = runDCEvents rest s := by
  constructor
  · rfl
  · simp [runDCEvents, dcEvent, dcMessageEvent]

/-- Witness for C8 at a concrete non-JSON frame. -/
theorem claim_C8_witness :
    dcMessageEvent (Frame.malformed "not json") connectedState = (connectedState, []) :=
  (claim_C8_malformed_frame_dropped "not json" connectedState []).1

/-- Claim C9: `setMicMuted true` disables (does not remove) every local audio
track and a subsequent `isMicMuted` reads true; with no local stream,
`isMicMuted` reads true as the fail-safe default. -/
theorem claim_C9_mute_failsafe (s : ServiceState) :
    isMicMuted (setMicMuted true s) = true ∧
    (∀ tracks, s.localStream = some tracks →
       ∃ tracks2, (setMicMuted true s).localStream = some tracks2 ∧
         tracks2.length = tracks.length ∧
         ∀ t ∈ tracks2, t.kind = "audio" → t.enabled = false) ∧
    isMicMuted { s with localStream := none } = true := by
  refine ⟨?_, ?_, rfl⟩
  · cases hls : s.localStream with
    | none => simp [setMicMuted, isMicMuted, hls]
    | some tracks =>
      simp only [setMicMuted, isMicMuted, hls]
      exact head_filter_audio_disabled _ (muted_audio_tracks tracks)
  · intro tracks htr
    refine ⟨tracks.map (fun t => if t.kind = "audio" then { t with enabled := !true } else t),
      ?_, by simp, muted_audio_tracks tracks⟩
    simp [setMicMuted, htr]

/-- Witness for C9 at a concrete one-track stream. -/
theorem claim_C9_witness :
    ({ initState with localStream := some [{ kind := "audio", enabled := true }] }
        : ServiceState).localStream = some [{ kind := "audio", enabled := true }] ∧
    isMicMuted (setMicMuted true
      { initState with localStream := some [{ kind := "audio", enabled := true }] }) = true := by
  refine ⟨rfl, ?_⟩
  exact (claim_C9_mute_failsafe
    { initState with localStream := some [{ kind := "audio", enabled := true }] }).1

/-- Claim C10: a well-formed message whose type is outside the dispatch
table, and a dispatched message missing its required payload field (text
messages without `text`; `error` with an absent or empty error string),
invoke no callback and leave all service state unchanged. -/
theorem claim_C10_unknown_ignored (msg : RTVIMessage) (s : ServiceState) :
    (msg.type ∉ dispatchTypes → handleRTVIMessage msg s = (s, [])) ∧
    ((msg.type = "user-transcription" ∨ msg.type = "bot-llm-text" ∨ msg.type = "bot-tts-text") →
       msg.data.bind RTVIData.text = none → handleRTVIMessage msg s = (s, [])) ∧
    (msg.type = "error" →
       (msg.data.bind RTVIData.error = none ∨ msg.data.bind RTVIData.error = some "") →
       handleRTVIMessage msg s = (s, [])) := by
  refine ⟨?_, ?_, ?_⟩
  · intro h
    simp only [dispatchTypes, List.mem_cons, List.not_mem_nil, or_false, not_or] at h
    obtain ⟨h1, h2, h3, h4, h5, h6, h7, h8, h9, h10, h11, h12⟩ := h
    simp [handleRTVIMessage, h1, h2, h3, h4, h5, h6, h7, h8, h9, h10, h11, h12]
  · intro hty ht
    cases hd : msg.data with
    | none =>
      rcases hty with h | h | h <;>
        simp [handleRTVIMessage, h, hd]
    | some d =>
      rw [hd] at ht
      have ht2 : d.text = none := ht
      rcases hty with h | h | h <;>
        simp [handleRTVIMessage, h, hd, ht2]
  · intro hty herr
    cases hd : msg.data with
    | none => simp [handleRTVIMessage, hty, hd]
    | some d =>
      rw [hd] at herr
      have herr2 : d.error = none ∨ d.error = some "" := herr
      rcases herr2 with h | h <;> simp [handleRTVIMessage, hty, hd, h]

/-- Witness for C10 at a concrete unknown-type message. -/
theorem claim_C10_witness :
    ("mystery-type" : String) ∉ dispatchTypes ∧
    handleRTVIMessage { type := "mystery-type", data := none } initState
      = (initState, []) := by
  refine ⟨by decide, ?_⟩
  exact (claim_C10_unknown_ignored { type := "mystery-type", data := none } initState).1 (by decide)

/-- Counterexample to claim C1 as stated: in a run of `connect` whose every
signaling step succeeds, no transport connected event and no data-channel
open event has occurred (the only callback of the run is the one shown, and no
data channel was even wired, `dc = none`), yet the service has reported
"connected" and set the flag — `connect` reports "connected" without waiting
for either readiness signal (rtvi.ts lines 164-165). -/
theorem claim_C1_counterexample :
    (connect exampleCfg okEnv initState).2.1
      = [CallbackEvent.connectionStateChange "connected"] ∧
    (connect exampleCfg okEnv initState).1.connected = true ∧
    (connect exampleCfg okEnv initState).1.dc = none := by
  exact ⟨rfl, rfl, rfl⟩

/-- Claim C1 amended: whenever every signaling step of `connect` succeeds,
`connect` reports "connected" (flag set and `onConnectionStateChange`
invoked with "connected") immediately upon the remote description being set,
before any transport-level connected event and before the control channel
opens (the data-channel field is untouched by `connect` itself). -/
theorem claim_C1_amended (cfg : RTVIConfig) (env : ConnectEnv) (s0 : ServiceState)
    (start : StartResponse) (tracks : List Track) (answer : OfferResponse)
    (h1 : env.startResult = .ok start) (h2 : start.ok = true)
    (h3 : cfg.enableMic ≠ some false) (h4 : env.mediaResult = .ok tracks)
    (h5 : env.offerCreated = .ok ()) (h6 : env.offerResult = .ok answer)
    (h7 : answer.ok = true) (h8 : env.remoteSet = .ok ()) :
    (connect cfg env s0).2.2 = .ok () ∧
    (connect cfg env s0).2.1 = [CallbackEvent.connectionStateChange "connected"] ∧
    (connect cfg env s0).1.connected = true ∧
    (connect cfg env s0).1.dc = s0.dc := by
  simp [connect, h1, h2, h3, h4, h5, h6, h7, h8]

/-- Witness for the amended C1 at the all-success environment. -/
theorem claim_C1_witness :
    okEnv.startResult = .ok okStartResponse ∧
    okStartResponse.ok = true ∧
    exampleCfg.enableMic ≠ some false ∧
    okEnv.mediaResult = .ok [micTrack] ∧
    okEnv.offerCreated = .ok () ∧
    okEnv.offerResult = .ok okOfferResponse ∧
    okOfferResponse.ok = true ∧
    okEnv.remoteSet = .ok () ∧
    (connect exampleCfg okEnv initState).2.2 = .ok () ∧
    (connect exampleCfg okEnv initState).1.connected = true := by
  have h := claim_C1_amended exampleCfg okEnv initState okStartResponse [micTrack]
    okOfferResponse rfl rfl (by decide) rfl rfl rfl rfl rfl
  exact ⟨rfl, rfl, by decide, rfl, rfl, rfl, rfl, rfl, h.1, h.2.2.1⟩

/-- Counterexample to claim C6 as stated: after the ICE connection state
reports the terminal value "failed" (clearing the flag), a later overall
connection-state event of the same session reporting "connected" sets the
flag back to true with no fresh `connect` call (rtvi.ts lines 217-218) —
the terminal values are not terminal for the `connected` flag of the session. -/
theorem claim_C6_counterexample :
    (iceConnectionStateChange "failed" connectedState).1.connected = false ∧
    ((connectionStateChange "connected"
        (iceConnectionStateChange "failed" connectedState).1).1).connected = true := by
  exact ⟨rfl, rfl⟩

/-- Claim C6 amended: either the ICE connection state or the overall
connection state reporting a terminal value (disconnected, failed, closed)
sets the connected flag of the service to false — the union of the two failure
signals; but this is not terminal for the Session: a later overall
connection-state event reporting "connected" sets the flag true again
without a fresh `connect` call. -/
theorem claim_C6_amended (s : ServiceState) (st : String)
    (h : terminalTransportState st = true) :
    (iceConnectionStateChange st s).1.connected = false ∧
    (iceConnectionStateChange st s).2 = [CallbackEvent.connectionStateChange st] ∧
    (connectionStateChange st s).1.connected = false ∧
    (connectionStateChange "connected" s).1.connected = true := by
  have h3 : st ≠ "connected" := by
    intro he
    subst he
    simp [terminalTransportState] at h
  refine ⟨?_, ?_, ?_, rfl⟩
  · simp [iceConnectionStateChange, h]
  · simp [iceConnectionStateChange, h]
  · simp [connectionStateChange, h3, h]

/-- Witness for the amended C6 at the terminal state "failed". -/
theorem claim_C6_witness :
    terminalTransportState "failed" = true ∧
    (iceConnectionStateChange "failed" connectedState).1.connected = false ∧
    (connectionStateChange "failed" connectedState).1.connected = false := by
  have h := claim_C6_amended connectedState "failed" rfl
  exact ⟨rfl, h.1, h.2.2.1⟩

/-- Claim C7: on a fresh control channel, the service sends nothing before
the open event; immediately upon the open event it sends exactly one
`client-ready` frame — the first and only outgoing frame — carrying label
"rtvi-ai", type "client-ready", an 8-character random correlation id, and
protocol version "1.0.0". -/
theorem claim_C7_client_ready_on_open (s : ServiceState) (rs uuid : String)
    (pre post : List DCEvent)
    (hdc : s.dc = some { readyState := rs, sent := [] })
    (hpre : noOpenEvent pre = true) (hpost : noOpenEvent post = true)
    (hlen : 8 ≤ uuid.length) :
    sentFrames (runDCEvents pre s).1 = [] ∧
    sentFrames (runDCEvents (pre ++ DCEvent.opened uuid :: post) s).1
      = [clientReadyFrame uuid] ∧
    (clientReadyFrame uuid).label = "rtvi-ai" ∧
    (clientReadyFrame uuid).type = "client-ready" ∧
    (clientReadyFrame uuid).version = "1.0.0" ∧
    ((clientReadyFrame uuid).id).length = 8 := by
  have hpre_dc : ((runDCEvents pre s).1).dc = s.dc :=
    runDCEvents_dc_of_noOpen pre s hpre
  refine ⟨?_, ?_, rfl, rfl, rfl, ?_⟩
  · simp [sentFrames, hpre_dc, hdc]
  · rw [runDCEvents_append_state]
    have h1 : ((runDCEvents pre s).1).dc = some { readyState := rs, sent := [] } := by
      rw [hpre_dc, hdc]
    show sentFrames (runDCEvents post
      (dcEvent (DCEvent.opened uuid) (runDCEvents pre s).1).1).1 = _
    have h2 : (dcEvent (DCEvent.opened uuid) (runDCEvents pre s).1).1
        = { (runDCEvents pre s).1 with
            dc := some { readyState := "open", sent := [clientReadyFrame uuid] } } := by
      show dcOpenEvent uuid (runDCEvents pre s).1 = _
      exact dcOpenEvent_fresh uuid rs _ h1
    rw [h2]
    have h3 := runDCEvents_dc_of_noOpen post
      { (runDCEvents pre s).1 with
        dc := some { readyState := "open", sent := [clientReadyFrame uuid] } } hpost
    simp [sentFrames, h3]
  · show ((uuid.data.take 8).length) = 8
    rw [List.length_take]
    have hl : uuid.length = uuid.data.length := rfl
    omega

/-- Witness for C7: a single open event on a fresh channel with a concrete
36-character UUID. -/
theorem claim_C7_witness :
    ({ initState with dc := some { readyState := "connecting", sent := [] } }
        : ServiceState).dc = some { readyState := "connecting", sent := [] } ∧
    noOpenEvent [] = true ∧
    8 ≤ ("123e4567-e89b-12d3-a456-426614174000" : String).length ∧
    sentFrames (runDCEvents [DCEvent.opened "123e4567-e89b-12d3-a456-426614174000"]
      { initState with dc := some { readyState := "connecting", sent := [] } }).1
      = [clientReadyFrame "123e4567-e89b-12d3-a456-426614174000"] ∧
    (clientReadyFrame "123e4567-e89b-12d3-a456-426614174000").id.length = 8 := by
  have h := claim_C7_client_ready_on_open
    { initState with dc := some { readyState := "connecting", sent := [] } }
    "connecting" "123e4567-e89b-12d3-a456-426614174000" [] [] rfl rfl rfl (by decide)
  exact ⟨rfl, rfl, by decide, h.2.1, h.2.2.2.2.2⟩

/-- Claim C4: whenever `connect` fails (rejects with error `e`), it invokes
the error callback with that error, performs a full disconnect — every
resource field reset, so a subsequent `isMicMuted` reads true — fires the
disconnect notification, and re-raises `e`; in particular a non-success
HTTP status from the session-creation endpoint rejects with the
session-creation signaling error (`SignalingError` in the spec). -/
theorem claim_C4_connect_failure_cleanup (cfg : RTVIConfig) (env : ConnectEnv)
    (s0 : ServiceState) (e : ConnectError)
    (he : (connect cfg env s0).2.2 = Except.error e) :
    (connect cfg env s0).2.1
      = [CallbackEvent.errorEvent e.message,
         CallbackEvent.connectionStateChange "disconnected"] ∧
    (connect cfg env s0).1.localStream = none ∧
    (connect cfg env s0).1.pc = none ∧
    (connect cfg env s0).1.dc = none ∧
    (connect cfg env s0).1.remoteAudio = false ∧
    (connect cfg env s0).1.sessionId = none ∧
    (connect cfg env s0).1.connected = false ∧
    isMicMuted (connect cfg env s0).1 = true ∧
    (∀ start, env.startResult = .ok start → start.ok = false →
       e = .createSessionFailed start.status ∧ e.isSignalingError = true) := by
  have hstart : ∀ start, env.startResult = .ok start → start.ok = false →
      e = .createSessionFailed start.status ∧ e.isSignalingError = true := by
    intro start hs hok
    have hc : (connect cfg env s0).2.2
        = Except.error (ConnectError.createSessionFailed start.status) := by
      simp [connect, hs, hok, connectFail]
    rw [he] at hc
    injection hc with h
    subst h
    exact ⟨rfl, rfl⟩
  rcases connect_shape cfg env s0 with ⟨e1, s1, hcf⟩ | hok
  · have h221 : (connect cfg env s0).2.2 = Except.error e1 := by
      rw [hcf]
      rfl
    rw [he] at h221
    injection h221 with h
    subst h
    rw [hcf]
    exact ⟨rfl, rfl, rfl, rfl, rfl, rfl, rfl, rfl, hstart⟩
  · rw [he] at hok
    cases hok

/-- Witness for C4: the `/start` endpoint answers HTTP 500. -/
theorem claim_C4_witness :
    (connect exampleCfg badStartEnv initState).2.2
      = Except.error (ConnectError.createSessionFailed 500) ∧
    (connect exampleCfg badStartEnv initState).2.1
      = [CallbackEvent.errorEvent (ConnectError.createSessionFailed 500).message,
         CallbackEvent.connectionStateChange "disconnected"] ∧
    (connect exampleCfg badStartEnv initState).1.localStream = none ∧
    isMicMuted (connect exampleCfg badStartEnv initState).1 = true ∧
    (ConnectError.createSessionFailed 500).isSignalingError = true := by
  have h := claim_C4_connect_failure_cleanup exampleCfg badStartEnv initState
    (ConnectError.createSessionFailed 500) rfl
  exact ⟨rfl, h.1, h.2.1, h.2.2.2.2.2.2.2.1, rfl⟩

end RTVI
